import Mathlib

/-!
Shallow embedding of the process-wide runtime context core:
the config-observer registry (config_obs_mgr.cc), the pid-file guard
(pidfile.cc), the type-erased singleton registry and fork coordination
(ceph_context.h / ceph_context.cc), and the admin-command dispatch
(CephContext::do_command).  Each definition is translated from the C++
source; theorems settle the specification claims against them.
-/

namespace CephCore

/-! ### ObserverMgr — src/common/global/config_obs_mgr.h / .cc

`observers` is a `std::multimap<std::string, ConfigObs*>`; we model it as an
association list (an observer identity is an abstract `Nat`), with
`equal_range` becoming `List.filter`. -/

abbrev Observer := Nat

structure ObserverMgr where
  observers : List (String × Observer)
deriving DecidableEq

def ObserverMgr.empty : ObserverMgr := ⟨[]⟩

/-- `ObserverMgr::add_observer`: for every key in the observer's
`get_tracked_conf_keys()` list, `observers.emplace(*k, observer)`. -/
def ObserverMgr.add_observer (m : ObserverMgr) (obs : Observer)
    (trackedKeys : List String) : ObserverMgr :=
  ⟨m.observers ++ trackedKeys.map (fun k => (k, obs))⟩

/-- The erase loop of `ObserverMgr::remove_observer`: walks the map, erases
every entry whose mapped observer matches, and records in `found_obs`
whether any entry matched. -/
def removeLoop (obs : Observer) : List (String × Observer) →
    List (String × Observer) × Bool
  | [] => ([], false)
  | e :: rest =>
    let r := removeLoop obs rest
    if e.2 == obs then (r.1, true) else (e :: r.1, r.2)

/-- `ObserverMgr::remove_observer`: erase all associations of the observer;
`ceph_assert(found_obs)` — an observer with no association is a fatal
assertion failure, modelled as `none`. -/
def ObserverMgr.remove_observer (m : ObserverMgr) (obs : Observer) :
    Option ObserverMgr :=
  let r := removeLoop obs m.observers
  if r.2 then some ⟨r.1⟩ else none

/-- A diagnostic emitted to the optional `std::ostream *oss` sink during
`for_each_change`. -/
inductive Diag where
  | valueIs : String → String → Diag
  | notObserved : String → Diag
deriving DecidableEq

structure NotifyOutput where
  calls : List (Observer × String)
  diag : List Diag
deriving DecidableEq

/-- `ObserverMgr::for_each_change`: for each key of the changed set (a
`std::set<std::string>`, modelled as a duplicate-free list), look up the
`equal_range` of observers registered for that key and invoke the callback
once per matching entry with that key; when a diagnostic sink is supplied
and `proxy.get_val` succeeds, emit the new value, plus a
"may require restart" note when no observer tracks the key. -/
def ObserverMgr.for_each_change (m : ObserverMgr)
    (proxy : String → Option String) (oss : Bool) :
    List String → NotifyOutput
  | [] => ⟨[], []⟩
  | key :: rest =>
    let matched := m.observers.filter (fun e => e.1 == key)
    let hereDiag : List Diag :=
      if oss then
        match proxy key with
        | some val =>
          Diag.valueIs key val ::
            (if matched.isEmpty then [Diag.notObserved key] else [])
        | none => []
      else []
    let tail := m.for_each_change proxy oss rest
    ⟨matched.map (fun e => (e.2, e.1)) ++ tail.calls, hereDiag ++ tail.diag⟩

/-- `ObserverMgr::is_tracking`. -/
def ObserverMgr.is_tracking (m : ObserverMgr) (name : String) : Bool :=
  m.observers.any (fun e => e.1 == name)

/-! ### PidFileGuard — src/common/global/pidfile.cc

`struct pidfh` holds the descriptor, the path, and the device/inode
identity captured at acquisition.  The OS is modelled as an oracle
(`FsWorld`) giving the outcome of each system call; errno values are
positive, the functions return `0` or `-errno` as the C code does. -/

def EINVAL : Int := 22
def EDOM : Int := 33
def ENAMETOOLONG : Int := 36
def ESTALE : Int := 116

def PATH_MAX : Nat := 4096

/-- A POSIX errno: always strictly positive. -/
def Errno := {e : Int // 0 < e}

instance : DecidableEq Errno := Subtype.instDecidableEq

structure Stat where
  st_dev : Nat
  st_ino : Nat
deriving DecidableEq

structure Pidfh where
  pf_fd : Int
  pf_path : String
  pf_dev : Nat
  pf_ino : Nat
deriving DecidableEq

/-- `pidfh::reset()` — the Empty state of the handle. -/
def Pidfh.reset : Pidfh := ⟨-1, "", 0, 0⟩

/-- `pidfh::is_open()`. -/
def Pidfh.is_open (h : Pidfh) : Bool := h.pf_path ≠ "" && h.pf_fd ≠ -1

/-- Oracle for the system calls made by pidfile.cc.  `Except.error e`
means the call failed with errno `e`; `readR` yields the bytes
`safe_read` placed in the 32-byte buffer. -/
structure FsWorld where
  statOf : String → Except Errno Stat
  openR : String → Except Errno Nat
  fstatR : Int → Except Errno Stat
  lockR : Int → Except Errno Unit
  lseekR : Int → Except Errno Unit
  readR : Int → Except Errno String
  ftruncateR : Int → Except Errno Unit
  writeR : Int → String → Except Errno Unit
  unlinkR : String → Except Errno Unit
  pid : Int

/-- C `atoi` on the read-back buffer: skip leading whitespace, optional
sign, then the longest run of decimal digits. -/
def atoiDigits : List Char → Nat → Nat
  | [], acc => acc
  | c :: cs, acc =>
    if c.isDigit then atoiDigits cs (acc * 10 + (c.toNat - 48)) else acc

def isCSpace (c : Char) : Bool :=
  c = ' ' || c = '\t' || c = '\n' || c = '\x0b' || c = '\x0c' || c = '\r'

def atoi (s : String) : Int :=
  match s.toList.dropWhile isCSpace with
  | '-' :: cs => -(atoiDigits cs 0 : Int)
  | '+' :: cs => (atoiDigits cs 0 : Int)
  | cs => (atoiDigits cs 0 : Int)

/-- `pidfh::verify()`: `-EINVAL` when the descriptor field is `-1`;
`-errno` when the re-stat fails; `-ESTALE` when the on-disk device or
inode differs from the captured identity; `0` otherwise. -/
def Pidfh.verify (h : Pidfh) (w : FsWorld) : Int :=
  if h.pf_fd = -1 then -EINVAL
  else
    match w.statOf h.pf_path with
    | .error e => -e.val
    | .ok st =>
      if st.st_dev ≠ h.pf_dev ∨ st.st_ino ≠ h.pf_ino then -ESTALE else 0

/-- Result of `pidfh::remove()`: the returned code, the handle state after
the call, whether `::close` was issued on the descriptor, and whether the
path was unlinked. -/
structure RemoveResult where
  ret : Int
  fh : Pidfh
  closedFd : Bool
  unlinked : Bool
deriving DecidableEq

/-- `pidfh::remove()` (the release path): no-op on an empty path; on a
verify failure close the descriptor (when open) and reset; otherwise seek,
read back the stored pid (the read closes the descriptor before its result
is checked), compare it with `getpid()` — a mismatch returns `-EDOM`
without unlinking and without resetting — and only when both identity
checks passed unlink the path and reset. -/
def Pidfh.remove (h : Pidfh) (w : FsWorld) : RemoveResult :=
  if h.pf_path = "" then ⟨0, h, false, false⟩
  else
    let ret := h.verify w
    if ret < 0 then
      if h.pf_fd ≠ -1 then ⟨ret, Pidfh.reset, true, false⟩
      else ⟨ret, h, false, false⟩
    else
      match w.lseekR h.pf_fd with
      | .error e => ⟨-e.val, h, false, false⟩
      | .ok _ =>
        match w.readR h.pf_fd with
        | .error e => ⟨-e.val, h, true, false⟩
        | .ok buf =>
          if atoi buf ≠ w.pid then ⟨-EDOM, h, true, false⟩
          else
            match w.unlinkR h.pf_path with
            | .error e => ⟨-e.val, h, true, false⟩
            | .ok _ => ⟨0, Pidfh.reset, true, true⟩

/-- `pidfh::open()` (acquisition): truncating `snprintf` of the configured
path (`-ENAMETOOLONG` when it does not fit), `open(2)`, capture of the
device/inode identity via `fstat`, then a non-blocking exclusive
`fcntl(F_SETLK)`; every failure resets the handle. -/
def Pidfh.open (pid_file : String) (w : FsWorld) : Int × Pidfh :=
  let path := String.mk (pid_file.toList.take PATH_MAX)
  if pid_file.length ≥ PATH_MAX + 1 then
    (-ENAMETOOLONG, { Pidfh.reset with pf_path := path })
  else
    match w.openR path with
    | .error e => (-e.val, Pidfh.reset)
    | .ok fd =>
      match w.fstatR (fd : Int) with
      | .error e => (-e.val, Pidfh.reset)
      | .ok st =>
        match w.lockR (fd : Int) with
        | .error e => (-e.val, Pidfh.reset)
        | .ok _ => (0, ⟨(fd : Int), path, st.st_dev, st.st_ino⟩)

/-- `pidfh::write()` (write_self_pid): no-op unless open; `ftruncate`
then write of the decimal pid followed by a newline. -/
def Pidfh.write (h : Pidfh) (w : FsWorld) : Int :=
  if ¬ h.is_open then 0
  else
    match w.ftruncateR h.pf_fd with
    | .error e => -e.val
    | .ok _ =>
      match w.writeR h.pf_fd (toString w.pid ++ "\n") with
      | .error e => -e.val
      | .ok _ => 0

/-! ### SingletonRegistry and fork coordination —
src/common/global/ceph_context.h (`lookup_or_create_singleton_object`) and
ceph_context.cc (`notify_pre_fork`).

`associated_objs` is a `std::map<std::pair<std::string, std::type_index>,
immobile_any>`; a logical type (`std::type_index`) is an abstract `Nat`, and
a stored instance is identified by the `Nat` allocated at its
construction (`next_id` plays the role of placement-new producing a fresh
object identity). `associated_objs_drop_on_fork` is a `std::set<string>`
of names only. -/

structure SingletonRegistry where
  associated_objs : List ((String × Nat) × Nat)
  associated_objs_drop_on_fork : List String
  next_id : Nat
deriving DecidableEq

def SingletonRegistry.empty : SingletonRegistry := ⟨[], [], 0⟩

/-- `std::set::insert` on the drop-on-fork name set. -/
def insertName (name : String) (s : List String) : List String :=
  if name ∈ s then s else s ++ [name]

/-- `CephContext::lookup_or_create_singleton_object<T>`: look up the slot
keyed by `(name, typeid(T))`; if absent, record the name in the
drop-on-fork set when requested and construct the value in place
(allocating a fresh instance identity); return the stored instance. -/
def lookup_or_create_singleton_object (name : String) (ty : Nat)
    (drop_on_fork : Bool) (r : SingletonRegistry) :
    Nat × SingletonRegistry :=
  match r.associated_objs.find? (fun e => e.1 == (name, ty)) with
  | some e => (e.2, r)
  | none =>
    let ds := if drop_on_fork
      then insertName name r.associated_objs_drop_on_fork
      else r.associated_objs_drop_on_fork
    (r.next_id,
     { associated_objs := r.associated_objs ++ [((name, ty), r.next_id)],
       associated_objs_drop_on_fork := ds,
       next_id := r.next_id + 1 })

/-- The fork-relevant state of a `CephContext`: the ordered fork-watcher
list (watchers are abstract identities) and the singleton registry. -/
structure ForkState where
  fork_watchers : List Nat
  registry : SingletonRegistry
deriving DecidableEq

/-- `CephContext::notify_pre_fork`: invoke every watcher's
`handle_pre_fork` in registration order (returned as the ordered trace of
hook invocations), then erase every `associated_objs` entry whose name is
in the drop-on-fork set, then clear that set. -/
def notify_pre_fork (s : ForkState) : List Nat × ForkState :=
  let hooks := s.fork_watchers
  let objs := s.registry.associated_objs.filter
    (fun e => ¬ (e.1.1 ∈ s.registry.associated_objs_drop_on_fork))
  (hooks,
   { s with registry :=
      { s.registry with
        associated_objs := objs,
        associated_objs_drop_on_fork := [] } })

/-- Well-formedness maintained by the registry: at most one slot per
`(name, type)` key, and every stored instance identity was allocated
before `next_id`. -/
def SingletonRegistry.WF (r : SingletonRegistry) : Prop :=
  (r.associated_objs.map Prod.fst).Nodup ∧
    ∀ e ∈ r.associated_objs, e.2 < r.next_id

instance (r : SingletonRegistry) : Decidable r.WF := by
  unfold SingletonRegistry.WF; infer_instance

/-! ### Admin-command dispatch — `CephContext::do_command`
(src/common/global/ceph_context.cc). -/

/-- The flat key→value argument map of an admin command (`cmdmap_t`):
string-valued and string-vector-valued arguments as read by
`cmd_getval`. -/
structure Cmdmap where
  strs : String → Option String
  strLists : String → Option (List String)

/-- One formatted item of a command response; collaborator calls are
recorded with the arguments the dispatch passes them. -/
inductive RespItem where
  | perfDump (logger counter : String)
  | perfSchema
  | perfHistogramDump (logger counter : String)
  | perfHistogramSchema
  | missingArgError
  | perfReset (var : String)
  | configShow
  | configUnset (var : String)
  | configSet (var : String) (joined : String)
  | configGet (var : String)
  | configHelpOne (var : String)
  | configHelpAll
  | confDiffAll
  | confDiffGet (setting : String)
  | logFlush
  | logDump
  | logReopen
deriving DecidableEq

/-- Outcome of one `do_command` dispatch: the `ceph_assert_always` fatal
assert, `ceph_abort()`, the `ceph_abort_msg("registered under wrong
command?")` of the final else, or a normal formatted response. -/
inductive CmdOutcome where
  | fatalAssert
  | abortCalled
  | abortWrongCommand
  | response (items : List RespItem)
deriving DecidableEq

def CmdOutcome.isFatal : CmdOutcome → Bool
  | .fatalAssert => true
  | .abortCalled => true
  | .abortWrongCommand => true
  | .response _ => false

/-- `str_join(val, " ")` — config set joins its value words with a
single space. -/
def str_join (l : List String) (sep : String) : String :=
  String.intercalate sep l

/-- `CephContext::do_command`: the assert/abort gate
(`ceph_assert_always(!(command == "assert" && debug_asok_assert_abort))`
then `if (command == "abort" && debug_asok_assert_abort) ceph_abort()`)
followed by the dispatch chain.  In the `config diff get` branch the
source declares `std::string setting;` and never reads `var` from the
cmdmap, so `_conf.diff(f, setting)` always receives the empty string. -/
def do_command (debug_asok_assert_abort : Bool) (command : String)
    (cmdmap : Cmdmap) : CmdOutcome :=
  if command = "assert" ∧ debug_asok_assert_abort then .fatalAssert
  else if command = "abort" ∧ debug_asok_assert_abort then .abortCalled
  else if command = "perfcounters_dump" ∨ command = "1" ∨
      command = "perf dump" then
    .response [.perfDump ((cmdmap.strs "logger").getD "")
                         ((cmdmap.strs "counter").getD "")]
  else if command = "perfcounters_schema" ∨ command = "2" ∨
      command = "perf schema" then
    .response [.perfSchema]
  else if command = "perf histogram dump" then
    .response [.perfHistogramDump ((cmdmap.strs "logger").getD "")
                                  ((cmdmap.strs "counter").getD "")]
  else if command = "perf histogram schema" then
    .response [.perfHistogramSchema]
  else if command = "perf reset" then
    match cmdmap.strs "var" with
    | none => .response [.missingArgError]
    | some v => .response [.perfReset v]
  else if command = "config show" then .response [.configShow]
  else if command = "config unset" then
    match cmdmap.strs "var" with
    | none => .response [.missingArgError]
    | some v => .response [.configUnset v]
  else if command = "config set" then
    match cmdmap.strs "var", cmdmap.strLists "val" with
    | some v, some vals => .response [.configSet v (str_join vals " ")]
    | _, _ => .response [.missingArgError]
  else if command = "config get" then
    match cmdmap.strs "var" with
    | none => .response [.missingArgError]
    | some v => .response [.configGet v]
  else if command = "config help" then
    match cmdmap.strs "var" with
    | some v => .response [.configHelpOne v]
    | none => .response [.configHelpAll]
  else if command = "config diff" then .response [.confDiffAll]
  else if command = "config diff get" then
    .response [.confDiffGet ""]
  else if command = "log flush" then .response [.logFlush]
  else if command = "log dump" then .response [.logDump]
  else if command = "log reopen" then .response [.logReopen]
  else .abortWrongCommand

/-! ### Concrete inputs used by counterexamples and witnesses. -/

def proxy0 : String → Option String := fun _ => none

def cmdmap0 : Cmdmap := ⟨fun _ => none, fun _ => none⟩

/-- A cmdmap supplying `var=log_file`, as the admin transport does for
`config diff get log_file`. -/
def cmdmapVarLogFile : Cmdmap :=
  ⟨fun k => if k = "var" then some "log_file" else none, fun _ => none⟩

/-- A handle in the Locked state: fd 3 on path `run.pid`, captured
identity device 1 / inode 1. -/
def fhLocked : Pidfh := ⟨3, "run.pid", 1, 1⟩

/-- The same path/identity but with the descriptor field closed. -/
def fhClosedFd : Pidfh := ⟨-1, "run.pid", 1, 1⟩

/-- A filesystem in which `run.pid` still has the captured identity but
its content reads back as pid 999 while the current process id is 42. -/
def fsWorldPidMismatch : FsWorld where
  statOf := fun p => if p = "run.pid" then .ok ⟨1, 1⟩ else .error ⟨2, by decide⟩
  openR := fun _ => .ok 3
  fstatR := fun _ => .ok ⟨1, 1⟩
  lockR := fun _ => .ok ()
  lseekR := fun _ => .ok ()
  readR := fun _ => .ok "999\n"
  ftruncateR := fun _ => .ok ()
  writeR := fun _ _ => .ok ()
  unlinkR := fun _ => .ok ()
  pid := 42

/-- The registry after `lookup_or_create_singleton_object<TypeA>("x")`:
one slot keyed `("x", 0)` holding instance `0`. -/
def regXTypeA : SingletonRegistry := ⟨[(("x", 0), 0)], [], 1⟩

/-- A registry whose single slot `("x", 0)` was created with
`drop_on_fork = true`. -/
def regXDropped : SingletonRegistry := ⟨[(("x", 0), 0)], ["x"], 1⟩

/-- A context with two registered fork watchers and an empty singleton
registry. -/
def forkState0 : ForkState := ⟨[5, 7], SingletonRegistry.empty⟩

/-! ## Theorems -/

theorem removeLoop_eq (obs : Observer) (l : List (String × Observer)) :
    removeLoop obs l =
      (l.filter (fun e => !(e.2 == obs)), l.any (fun e => e.2 == obs)) := by
  induction l with
  | nil => rfl
  | cons e rest ih =>
    simp only [removeLoop, ih, List.filter_cons, List.any_cons]
    cases h : e.2 == obs <;> simp

/-- Claim C7: `remove_observer` removes every `(key, observer)` association
of the observer; when the observer has no association at all, the
`ceph_assert(found_obs)` fires — a non-recoverable, process-terminating
assertion (modelled by the `none` result) — rather than a recoverable
error. -/
theorem remove_observer_removes_all_or_fatal (m : ObserverMgr) (O : Observer) :
    m.remove_observer O =
      if m.observers.any (fun e => e.2 == O)
      then some ⟨m.observers.filter (fun e => !(e.2 == O))⟩
      else none := by
  simp only [ObserverMgr.remove_observer, removeLoop_eq]

theorem remove_observer_removes_all_or_fatal_witness :
    (⟨[("a", 5)]⟩ : ObserverMgr).remove_observer 7 = none ∧
    (⟨[("a", 5), ("b", 5)]⟩ : ObserverMgr).remove_observer 5 = some ⟨[]⟩ :=
  ⟨(remove_observer_removes_all_or_fatal ⟨[("a", 5)]⟩ 7).trans (by decide),
   (remove_observer_removes_all_or_fatal ⟨[("a", 5), ("b", 5)]⟩ 5).trans
     (by decide)⟩

/-- Claim C6: for every dispatch, the `assert` command is a fatal fault —
when the debug flag is set it fails the `ceph_assert_always` gate, and
when the flag is clear it falls through the whole dispatch chain to the
`ceph_abort_msg` of the final else, so it terminates the process for every
flag value (in particular whenever the flag does not disable it); and the
`abort` command terminates the process immediately (`ceph_abort()`) when
the debug flag enables it. -/
theorem do_command_assert_abort_fatal (flag : Bool) (m : Cmdmap) :
    (do_command flag "assert" m).isFatal = true
    ∧ do_command flag "assert" m =
        (if flag then .fatalAssert else .abortWrongCommand)
    ∧ do_command true "abort" m = .abortCalled := by
  cases flag <;> exact ⟨rfl, rfl, rfl⟩

theorem do_command_assert_abort_fatal_witness :
    (do_command true "assert" cmdmap0).isFatal = true
    ∧ do_command true "assert" cmdmap0 =
        (if true then .fatalAssert else .abortWrongCommand)
    ∧ do_command true "abort" cmdmap0 = .abortCalled :=
  do_command_assert_abort_fatal true cmdmap0

/-- Claim C9 (code bug): the `config diff get` branch of `do_command`
declares `std::string setting;` but never reads `var` from the cmdmap, so
`_conf.diff(f, setting)` always receives the empty string: the response is
provably independent of the supplied variable name, although the command
is registered as `config diff get name=var,type=CephString` with help text
promising the diff of the one named setting. -/
theorem config_diff_get_ignores_var :
    (∀ (flag : Bool) (m1 m2 : Cmdmap),
        do_command flag "config diff get" m1
          = do_command flag "config diff get" m2)
    ∧ do_command false "config diff get" cmdmapVarLogFile
        = .response [.confDiffGet ""]
    ∧ cmdmapVarLogFile.strs "var" = some "log_file" := by
  refine ⟨fun flag m1 m2 => ?_, rfl, rfl⟩
  cases flag <;> rfl

theorem count_swap_filter (l : List (String × Observer)) (key K : String)
    (O : Observer) :
    ((l.filter (fun e => e.1 == key)).map (fun e => (e.2, e.1))).count (O, K)
      = if key = K then l.count (K, O) else 0 := by
  induction l with
  | nil => simp
  | cons e rest ih =>
    obtain ⟨k0, o0⟩ := e
    by_cases h1 : k0 = key
    · subst h1
      by_cases h2 : k0 = K
      · subst h2
        by_cases h3 : o0 = O
        · subst h3
          simp [List.filter_cons, List.count_cons, ih]
        · simp [List.filter_cons, List.count_cons, ih, h3, Ne.symm h3]
      · simp [List.filter_cons, List.count_cons, ih, h2, Ne.symm h2]
    · by_cases h2 : key = K
      · subst h2
        simp [List.filter_cons, List.count_cons, h1, ih]
      · simp [List.filter_cons, List.count_cons, h1, h2, ih]

theorem for_each_change_count (m : ObserverMgr)
    (proxy : String → Option String) (oss : Bool) (changes : List String)
    (O : Observer) (K : String) (hnd : changes.Nodup) :
    ((m.for_each_change proxy oss changes).calls.count (O, K)) =
      if K ∈ changes then m.observers.count (K, O) else 0 := by
  induction changes with
  | nil => simp [ObserverMgr.for_each_change]
  | cons key rest ih =>
    obtain ⟨hk, hrest⟩ := List.nodup_cons.mp hnd
    simp only [ObserverMgr.for_each_change, List.count_append]
    rw [ih hrest, count_swap_filter]
    by_cases hKk : K = key
    · subst hKk
      simp [hk]
    · simp [List.mem_cons, hKk, Ne.symm hKk]

/-- Claim C2: registering observer `O` for the distinct keys `K1 ≠ K2` and
notifying with changed-set `{K1}` invokes `O` exactly once, and that
invocation references `K1` only; in general, an observer is invoked once
per `(observer, changed key)` pair it is registered under — the invocation
count for `(O, K)` equals the number of `(K, O)` registrations when `K` is
in the (duplicate-free) changed set, and `0` otherwise. -/
theorem for_each_change_once_per_pair (K1 K2 : String) (O : Observer)
    (proxy : String → Option String) (oss : Bool) (m : ObserverMgr)
    (changes : List String) (K : String) (Ob : Observer)
    (hne : K1 ≠ K2) (hnd : changes.Nodup) :
    ((ObserverMgr.empty.add_observer O [K1, K2]).for_each_change
        proxy oss [K1]).calls = [(O, K1)]
    ∧ (m.for_each_change proxy oss changes).calls.count (Ob, K) =
        if K ∈ changes then m.observers.count (K, Ob) else 0 := by
  refine ⟨?_, for_each_change_count m proxy oss changes Ob K hnd⟩
  simp [ObserverMgr.for_each_change, ObserverMgr.add_observer,
    ObserverMgr.empty, List.filter_cons, Ne.symm hne]

theorem for_each_change_once_per_pair_witness :
    ("a" : String) ≠ "b" ∧ (["a"] : List String).Nodup
    ∧ (((ObserverMgr.empty.add_observer 0 ["a", "b"]).for_each_change
          proxy0 false ["a"]).calls = [(0, "a")]
       ∧ ((ObserverMgr.empty.add_observer 0 ["a", "b"]).for_each_change
            proxy0 false ["a"]).calls.count (0, "a") =
          if "a" ∈ ["a"]
          then (ObserverMgr.empty.add_observer 0 ["a", "b"]).observers.count
            ("a", 0)
          else 0) :=
  ⟨by decide, by decide,
   for_each_change_once_per_pair "a" "b" 0 proxy0 false
     (ObserverMgr.empty.add_observer 0 ["a", "b"]) ["a"] "a" 0
     (by decide) (by decide)⟩

theorem mem_insertName (name : String) (l : List String) :
    name ∈ insertName name l := by
  unfold insertName
  split
  · assumption
  · simp

theorem lookup_found (r : SingletonRegistry) (name : String) (ty : Nat)
    (d : Bool) (e : (String × Nat) × Nat)
    (hf : r.associated_objs.find? (fun x => x.1 == (name, ty)) = some e) :
    lookup_or_create_singleton_object name ty d r = (e.2, r) := by
  simp [lookup_or_create_singleton_object, hf]

theorem lookup_created (r : SingletonRegistry) (name : String) (ty : Nat)
    (d : Bool)
    (hf : r.associated_objs.find? (fun x => x.1 == (name, ty)) = none) :
    lookup_or_create_singleton_object name ty d r =
      (r.next_id,
       { associated_objs := r.associated_objs ++ [((name, ty), r.next_id)],
         associated_objs_drop_on_fork := if d
           then insertName name r.associated_objs_drop_on_fork
           else r.associated_objs_drop_on_fork,
         next_id := r.next_id + 1 }) := by
  cases d <;> simp [lookup_or_create_singleton_object, hf]

theorem notify_pre_fork_eq (t : ForkState) :
    notify_pre_fork t =
      (t.fork_watchers,
       ⟨t.fork_watchers,
        { associated_objs := t.registry.associated_objs.filter
            (fun e => ¬ (e.1.1 ∈ t.registry.associated_objs_drop_on_fork)),
          associated_objs_drop_on_fork := [],
          next_id := t.registry.next_id }⟩) := rfl

/-- Claim C1 counterexample: after creating the singleton `("x", TypeA)`,
a later `lookup_or_create_singleton_object` for name `"x"` with a
different logical type returns normally — no assertion or abort exists on
this code path — silently creating and returning a fresh instance in a
second slot keyed `("x", TypeB)` that coexists with the first. -/
theorem lookup_different_type_silently_tolerated_cex :
    (lookup_or_create_singleton_object "x" 1 false
        (lookup_or_create_singleton_object "x" 0 false
          SingletonRegistry.empty).2).2.associated_objs
      = [(("x", 0), 0), (("x", 1), 1)]
    ∧ (lookup_or_create_singleton_object "x" 1 false
        (lookup_or_create_singleton_object "x" 0 false
          SingletonRegistry.empty).2).1 = 1
    ∧ (lookup_or_create_singleton_object "x" 0 false
        SingletonRegistry.empty).1 = 0 := by decide

/-- Claim C1 (amended): because slots are keyed by the pair
`(name, logical type)`, a later lookup under the same name with a type
that has no slot yet is not a fault: it constructs and returns a fresh
instance in a new slot under `(name, U)`, and the original `(name, T)`
slot continues to coexist. -/
theorem lookup_different_type_creates_second_slot (r : SingletonRegistry)
    (name : String) (tyT tyU : Nat) (iT : Nat) (d : Bool)
    (hne : tyU ≠ tyT) (hwf : r.WF)
    (hmem : ((name, tyT), iT) ∈ r.associated_objs)
    (habs : r.associated_objs.find? (fun e => e.1 == (name, tyU)) = none) :
    (lookup_or_create_singleton_object name tyU d r).1 = r.next_id
    ∧ (lookup_or_create_singleton_object name tyU d r).1 ≠ iT
    ∧ ((name, tyT), iT) ∈
        (lookup_or_create_singleton_object name tyU d r).2.associated_objs
    ∧ ((name, tyU), r.next_id) ∈
        (lookup_or_create_singleton_object name tyU d r).2.associated_objs := by
  rw [lookup_created r name tyU d habs]
  refine ⟨rfl, ?_, ?_, ?_⟩
  · exact Ne.symm (Nat.ne_of_lt (hwf.2 _ hmem))
  · exact List.mem_append.mpr (Or.inl hmem)
  · exact List.mem_append.mpr (Or.inr (List.mem_singleton.mpr rfl))

theorem lookup_different_type_creates_second_slot_witness :
    (1 : Nat) ≠ 0 ∧ regXTypeA.WF
    ∧ (("x", 0), 0) ∈ regXTypeA.associated_objs
    ∧ regXTypeA.associated_objs.find? (fun e => e.1 == ("x", 1)) = none
    ∧ ((lookup_or_create_singleton_object "x" 1 false regXTypeA).1
        = regXTypeA.next_id
      ∧ (lookup_or_create_singleton_object "x" 1 false regXTypeA).1 ≠ 0
      ∧ (("x", 0), 0) ∈
          (lookup_or_create_singleton_object "x" 1 false
            regXTypeA).2.associated_objs
      ∧ (("x", 1), regXTypeA.next_id) ∈
          (lookup_or_create_singleton_object "x" 1 false
            regXTypeA).2.associated_objs) :=
  ⟨by decide, by decide, by decide, by decide,
   lookup_different_type_creates_second_slot regXTypeA "x" 0 1 0 false
     (by decide) (by decide) (by decide) (by decide)⟩

/-- Claim C4: for a fixed `(name, type)` key, a second lookup returns the
same instance and leaves the registry untouched (the value is constructed
only by the first caller); the at-most-one-slot-per-key and
instance-identity invariants are preserved; and once a fork event drops
the slot (its name being in the drop-on-fork set), a subsequent lookup
constructs a new instance distinct from the old one. -/
theorem singleton_same_key_same_instance (r : SingletonRegistry)
    (name : String) (ty : Nat) (d d' : Bool) (hwf : r.WF) :
    lookup_or_create_singleton_object name ty d'
        (lookup_or_create_singleton_object name ty d r).2
      = ((lookup_or_create_singleton_object name ty d r).1,
         (lookup_or_create_singleton_object name ty d r).2)
    ∧ (lookup_or_create_singleton_object name ty d r).2.WF
    ∧ ∀ (ws : List Nat) (i : Nat),
        ((name, ty), i) ∈ r.associated_objs →
        name ∈ r.associated_objs_drop_on_fork →
        (lookup_or_create_singleton_object name ty d
            (notify_pre_fork ⟨ws, r⟩).2.registry).1 ≠ i := by
  refine ⟨?_, ?_, ?_⟩
  · cases hf : r.associated_objs.find? (fun e => e.1 == (name, ty)) with
    | some e =>
      rw [lookup_found r name ty d e hf]
      exact lookup_found r name ty d' e hf
    | none =>
      rw [lookup_created r name ty d hf]
      have hf2 : (r.associated_objs ++
          [((name, ty), r.next_id)]).find? (fun x => x.1 == (name, ty))
          = some ((name, ty), r.next_id) := by
        rw [List.find?_append, hf]
        simp
      exact lookup_found _ name ty d' ((name, ty), r.next_id) hf2
  · cases hf : r.associated_objs.find? (fun e => e.1 == (name, ty)) with
    | some e =>
      rw [lookup_found r name ty d e hf]
      exact hwf
    | none =>
      rw [lookup_created r name ty d hf]
      constructor
      · rw [List.map_append]
        rw [List.nodup_append]
        refine ⟨hwf.1, by simp, ?_⟩
        intro a ha hb
        have ha' := List.mem_map.mp ha
        obtain ⟨e, he, hea⟩ := ha'
        have hnone := List.find?_eq_none.mp hf e he
        simp only [List.map_cons, List.map_nil, List.mem_singleton] at hb
        subst hb
        exact hnone (by simp [hea])
      · intro e he
        rcases List.mem_append.mp he with h1 | h1
        · exact Nat.lt_trans (hwf.2 e h1) (Nat.lt_succ_self _)
        · simp only [List.mem_singleton] at h1
          subst h1
          exact Nat.lt_succ_self _
  · intro ws i hmem hdrop
    rw [notify_pre_fork_eq]
    have hfind : ((⟨ws, r⟩ : ForkState).registry.associated_objs.filter
        (fun e => ¬ (e.1.1 ∈
          (⟨ws, r⟩ : ForkState).registry.associated_objs_drop_on_fork))).find?
        (fun x => x.1 == (name, ty)) = none := by
      apply List.find?_eq_none.mpr
      intro x hx hpx
      have hx' := List.mem_filter.mp hx
      have hnotin : ¬ (x.1.1 ∈ r.associated_objs_drop_on_fork) := by
        simpa using hx'.2
      have hx1 : x.1 = (name, ty) := by simpa using hpx
      apply hnotin
      rw [hx1]
      exact hdrop
    rw [lookup_created _ name ty d hfind]
    exact Ne.symm (Nat.ne_of_lt (hwf.2 _ hmem))

theorem singleton_same_key_same_instance_witness :
    regXDropped.WF
    ∧ (lookup_or_create_singleton_object "x" 0 false
          (lookup_or_create_singleton_object "x" 0 true regXDropped).2
        = ((lookup_or_create_singleton_object "x" 0 true regXDropped).1,
           (lookup_or_create_singleton_object "x" 0 true regXDropped).2)
      ∧ (lookup_or_create_singleton_object "x" 0 true regXDropped).2.WF
      ∧ ∀ (ws : List Nat) (i : Nat),
          (("x", 0), i) ∈ regXDropped.associated_objs →
          "x" ∈ regXDropped.associated_objs_drop_on_fork →
          (lookup_or_create_singleton_object "x" 0 true
              (notify_pre_fork ⟨ws, regXDropped⟩).2.registry).1 ≠ i) :=
  ⟨by decide,
   singleton_same_key_same_instance regXDropped "x" 0 true false (by decide)⟩

/-- Claim C5: `notify_pre_fork` first invokes every registered watcher's
pre-fork hook in registration order, then removes every singleton slot
whose name is in the drop-on-fork set, then clears that set; consequently
a singleton freshly created with `drop_on_fork = true` is absent
afterwards, and a subsequent lookup for the same `(name, type)` key
constructs a new instance distinct from the old one. -/
theorem notify_pre_fork_hooks_then_prune (s : ForkState) (name : String)
    (ty : Nat) (d : Bool) (hwf : s.registry.WF)
    (habs : s.registry.associated_objs.find?
      (fun e => e.1 == (name, ty)) = none) :
    (notify_pre_fork ⟨s.fork_watchers,
        (lookup_or_create_singleton_object name ty true s.registry).2⟩).1
      = s.fork_watchers
    ∧ (notify_pre_fork ⟨s.fork_watchers,
        (lookup_or_create_singleton_object name ty true
          s.registry).2⟩).2.registry.associated_objs
      = (lookup_or_create_singleton_object name ty true
          s.registry).2.associated_objs.filter
          (fun e => ¬ (e.1.1 ∈ (lookup_or_create_singleton_object name ty true
            s.registry).2.associated_objs_drop_on_fork))
    ∧ (notify_pre_fork ⟨s.fork_watchers,
        (lookup_or_create_singleton_object name ty true
          s.registry).2⟩).2.registry.associated_objs_drop_on_fork = []
    ∧ (∀ j, ((name, ty), j) ∉ (notify_pre_fork ⟨s.fork_watchers,
        (lookup_or_create_singleton_object name ty true
          s.registry).2⟩).2.registry.associated_objs)
    ∧ (lookup_or_create_singleton_object name ty d
        (notify_pre_fork ⟨s.fork_watchers,
          (lookup_or_create_singleton_object name ty true
            s.registry).2⟩).2.registry).1
      ≠ (lookup_or_create_singleton_object name ty true s.registry).1 := by
  have hds : name ∈ (lookup_or_create_singleton_object name ty true
      s.registry).2.associated_objs_drop_on_fork := by
    rw [lookup_created s.registry name ty true habs]
    simpa using mem_insertName name s.registry.associated_objs_drop_on_fork
  have habsent : ∀ j, ((name, ty), j) ∉ (notify_pre_fork ⟨s.fork_watchers,
      (lookup_or_create_singleton_object name ty true
        s.registry).2⟩).2.registry.associated_objs := by
    intro j hj
    rw [notify_pre_fork_eq] at hj
    have hj' := List.mem_filter.mp hj
    have : ¬ (name ∈ (lookup_or_create_singleton_object name ty true
        s.registry).2.associated_objs_drop_on_fork) := by
      simpa using hj'.2
    exact this hds
  refine ⟨rfl, rfl, rfl, habsent, ?_⟩
  have hfind : ((notify_pre_fork ⟨s.fork_watchers,
      (lookup_or_create_singleton_object name ty true
        s.registry).2⟩).2.registry.associated_objs.find?
      (fun x => x.1 == (name, ty))) = none := by
    apply List.find?_eq_none.mpr
    intro x hx hpx
    have hx1 : x.1 = (name, ty) := by simpa using hpx
    exact habsent x.2 (by rw [← hx1]; exact hx)
  rw [lookup_created _ name ty d hfind]
  rw [notify_pre_fork_eq, lookup_created s.registry name ty true habs]
  exact Nat.succ_ne_self s.registry.next_id

theorem notify_pre_fork_hooks_then_prune_witness :
    forkState0.registry.WF
    ∧ forkState0.registry.associated_objs.find?
        (fun e => e.1 == ("x", 0)) = none
    ∧ ((notify_pre_fork ⟨forkState0.fork_watchers,
          (lookup_or_create_singleton_object "x" 0 true
            forkState0.registry).2⟩).1 = forkState0.fork_watchers
      ∧ (notify_pre_fork ⟨forkState0.fork_watchers,
          (lookup_or_create_singleton_object "x" 0 true
            forkState0.registry).2⟩).2.registry.associated_objs
        = (lookup_or_create_singleton_object "x" 0 true
            forkState0.registry).2.associated_objs.filter
            (fun e => ¬ (e.1.1 ∈ (lookup_or_create_singleton_object "x" 0 true
              forkState0.registry).2.associated_objs_drop_on_fork))
      ∧ (notify_pre_fork ⟨forkState0.fork_watchers,
          (lookup_or_create_singleton_object "x" 0 true
            forkState0.registry).2⟩).2.registry.associated_objs_drop_on_fork
          = []
      ∧ (∀ j, (("x", 0), j) ∉ (notify_pre_fork ⟨forkState0.fork_watchers,
          (lookup_or_create_singleton_object "x" 0 true
            forkState0.registry).2⟩).2.registry.associated_objs)
      ∧ (lookup_or_create_singleton_object "x" 0 false
          (notify_pre_fork ⟨forkState0.fork_watchers,
            (lookup_or_create_singleton_object "x" 0 true
              forkState0.registry).2⟩).2.registry).1
        ≠ (lookup_or_create_singleton_object "x" 0 true
            forkState0.registry).1) :=
  ⟨by decide, by decide,
   notify_pre_fork_hooks_then_prune forkState0 "x" 0 false
     (by decide) (by decide)⟩

/-- Claim C10: drop-on-fork pruning is keyed by name alone: an entry
survives `notify_pre_fork` exactly when its name is not in the
drop-on-fork set, so after creating `("x", TypeA)` with
`drop_on_fork = true` and `("x", TypeB)` with `drop_on_fork = false`,
`notify_pre_fork` removes both slots — including the different-typed slot
that was created with `drop_on_fork = false`. -/
theorem drop_on_fork_prunes_by_name (s : ForkState) (name : String)
    (tA tB : Nat) (hne : tB ≠ tA)
    (habsA : s.registry.associated_objs.find?
      (fun e => e.1 == (name, tA)) = none) :
    (∀ (t : ForkState) (e : (String × Nat) × Nat),
        e ∈ (notify_pre_fork t).2.registry.associated_objs ↔
          e ∈ t.registry.associated_objs ∧
            e.1.1 ∉ t.registry.associated_objs_drop_on_fork)
    ∧ (∀ j, ((name, tA), j) ∉ (notify_pre_fork ⟨s.fork_watchers,
          (lookup_or_create_singleton_object name tB false
            (lookup_or_create_singleton_object name tA true
              s.registry).2).2⟩).2.registry.associated_objs)
    ∧ (∀ j, ((name, tB), j) ∉ (notify_pre_fork ⟨s.fork_watchers,
          (lookup_or_create_singleton_object name tB false
            (lookup_or_create_singleton_object name tA true
              s.registry).2).2⟩).2.registry.associated_objs) := by
  have hds1 : name ∈ (lookup_or_create_singleton_object name tA true
      s.registry).2.associated_objs_drop_on_fork := by
    rw [lookup_created s.registry name tA true habsA]
    simpa using mem_insertName name s.registry.associated_objs_drop_on_fork
  have hds2 : name ∈ (lookup_or_create_singleton_object name tB false
      (lookup_or_create_singleton_object name tA true
        s.registry).2).2.associated_objs_drop_on_fork := by
    cases hf : (lookup_or_create_singleton_object name tA true
        s.registry).2.associated_objs.find? (fun x => x.1 == (name, tB)) with
    | some e =>
      rw [lookup_found _ name tB false e hf]
      exact hds1
    | none =>
      rw [lookup_created _ name tB false hf]
      simpa using hds1
  refine ⟨?_, ?_, ?_⟩
  · intro t e
    rw [notify_pre_fork_eq]
    simp [List.mem_filter]
  · intro j hj
    rw [notify_pre_fork_eq] at hj
    have hj' := List.mem_filter.mp hj
    have hno : ¬ (name ∈ (lookup_or_create_singleton_object name tB false
        (lookup_or_create_singleton_object name tA true
          s.registry).2).2.associated_objs_drop_on_fork) := by
      simpa using hj'.2
    exact hno hds2
  · intro j hj
    rw [notify_pre_fork_eq] at hj
    have hj' := List.mem_filter.mp hj
    have hno : ¬ (name ∈ (lookup_or_create_singleton_object name tB false
        (lookup_or_create_singleton_object name tA true
          s.registry).2).2.associated_objs_drop_on_fork) := by
      simpa using hj'.2
    exact hno hds2

theorem drop_on_fork_prunes_by_name_witness :
    (1 : Nat) ≠ 0
    ∧ forkState0.registry.associated_objs.find?
        (fun e => e.1 == ("x", 0)) = none
    ∧ ((∀ (t : ForkState) (e : (String × Nat) × Nat),
          e ∈ (notify_pre_fork t).2.registry.associated_objs ↔
            e ∈ t.registry.associated_objs ∧
              e.1.1 ∉ t.registry.associated_objs_drop_on_fork)
      ∧ (∀ j, (("x", 0), j) ∉ (notify_pre_fork ⟨forkState0.fork_watchers,
            (lookup_or_create_singleton_object "x" 1 false
              (lookup_or_create_singleton_object "x" 0 true
                forkState0.registry).2).2⟩).2.registry.associated_objs)
      ∧ (∀ j, (("x", 1), j) ∉ (notify_pre_fork ⟨forkState0.fork_watchers,
            (lookup_or_create_singleton_object "x" 1 false
              (lookup_or_create_singleton_object "x" 0 true
                forkState0.registry).2).2⟩).2.registry.associated_objs)) :=
  ⟨by decide, by decide,
   drop_on_fork_prunes_by_name forkState0 "x" 0 1 (by decide) (by decide)⟩

/-- Claim C3 counterexample: on a Locked handle whose file content reads
back pid 999 while the current pid is 42, `remove()` returns `-EDOM`
(IdentityMismatch) without unlinking and does close the descriptor — but
the handle does NOT transition to Empty: `reset()` is not called on this
path, so the handle fields are left unchanged, contradicting the claim
that release always transitions the handle to Empty regardless of the
verify outcome. -/
theorem remove_pid_mismatch_not_reset_cex :
    (Pidfh.remove fhLocked fsWorldPidMismatch).ret = -EDOM
    ∧ (Pidfh.remove fhLocked fsWorldPidMismatch).unlinked = false
    ∧ (Pidfh.remove fhLocked fsWorldPidMismatch).closedFd = true
    ∧ (Pidfh.remove fhLocked fsWorldPidMismatch).fh ≠ Pidfh.reset := by
  decide

theorem verify_cases (h : Pidfh) (w : FsWorld) :
    h.verify w = 0 ∨ h.verify w < 0 := by
  unfold Pidfh.verify
  by_cases hfd : h.pf_fd = -1
  · rw [if_pos hfd]
    right
    norm_num [EINVAL]
  · rw [if_neg hfd]
    cases hs : w.statOf h.pf_path with
    | error e =>
      right
      show -(e.val) < 0
      have he := e.2
      omega
    | ok st =>
      show (if st.st_dev ≠ h.pf_dev ∨ st.st_ino ≠ h.pf_ino
          then -ESTALE else 0) = 0
        ∨ (if st.st_dev ≠ h.pf_dev ∨ st.st_ino ≠ h.pf_ino
          then -ESTALE else 0) < 0
      by_cases hd : st.st_dev ≠ h.pf_dev ∨ st.st_ino ≠ h.pf_ino
      · rw [if_pos hd]
        right
        norm_num [ESTALE]
      · rw [if_neg hd]
        left
        rfl

/-- Claim C3 (amended): on a Locked handle whose on-disk content no longer
holds the current process id, `release()` returns IdentityMismatch
(`-EDOM`), closes the descriptor, and does not unlink the path — but it
leaves the handle fields unchanged rather than transitioning to Empty;
and in every case the path is unlinked only when both the device/inode
identity check (`verify() = 0`) and the stored-pid check pass. -/
theorem remove_identity_mismatch_behavior (h : Pidfh) (w : FsWorld)
    (hpath : h.pf_path ≠ "")
    (hver : h.verify w = 0)
    (hlseek : w.lseekR h.pf_fd = .ok ())
    (buf : String) (hread : w.readR h.pf_fd = .ok buf)
    (hpid : atoi buf ≠ w.pid) :
    h.remove w = ⟨-EDOM, h, true, false⟩
    ∧ ∀ w' : FsWorld, (h.remove w').unlinked = true →
        h.verify w' = 0 ∧ ∃ b, w'.readR h.pf_fd = .ok b ∧ atoi b = w'.pid := by
  refine ⟨?_, ?_⟩
  · simp [Pidfh.remove, hpath, hver, hlseek, hread, hpid]
  · intro w' hu
    by_cases hp : h.pf_path = ""
    · simp [Pidfh.remove, hp] at hu
    · by_cases hv : h.verify w' < 0
      · by_cases hfd : h.pf_fd = -1
        · simp [Pidfh.remove, hp, hv, hfd] at hu
        · simp [Pidfh.remove, hp, hv, hfd] at hu
      · have hv0 : h.verify w' = 0 := (verify_cases h w').resolve_right hv
        cases hl : w'.lseekR h.pf_fd with
        | error e => simp [Pidfh.remove, hp, hv, hl] at hu
        | ok u =>
          cases hr : w'.readR h.pf_fd with
          | error e => simp [Pidfh.remove, hp, hv, hl, hr] at hu
          | ok b =>
            by_cases hbne : atoi b ≠ w'.pid
            · simp [Pidfh.remove, hp, hv, hl, hr, hbne] at hu
            · push_neg at hbne
              exact ⟨hv0, b, rfl, hbne⟩

theorem remove_identity_mismatch_behavior_witness :
    fhLocked.pf_path ≠ ""
    ∧ Pidfh.verify fhLocked fsWorldPidMismatch = 0
    ∧ fsWorldPidMismatch.lseekR fhLocked.pf_fd = .ok ()
    ∧ fsWorldPidMismatch.readR fhLocked.pf_fd = .ok "999\n"
    ∧ atoi "999\n" ≠ fsWorldPidMismatch.pid
    ∧ (Pidfh.remove fhLocked fsWorldPidMismatch
        = ⟨-EDOM, fhLocked, true, false⟩
      ∧ ∀ w' : FsWorld, (fhLocked.remove w').unlinked = true →
          fhLocked.verify w' = 0 ∧ ∃ b, w'.readR fhLocked.pf_fd = .ok b
            ∧ atoi b = w'.pid) :=
  ⟨by decide, by decide, rfl, rfl, by decide,
   remove_identity_mismatch_behavior fhLocked fsWorldPidMismatch (by decide)
     (by decide) rfl "999\n" rfl (by decide)⟩

/-- Claim C8 counterexample: with the descriptor field closed
(`pf_fd = -1`), `verify()` returns `-EINVAL`, not `Stale`, although the
claim counts the closed-descriptor case among those reported `Stale`. -/
theorem verify_closed_fd_not_stale_cex :
    fhClosedFd.pf_fd = -1
    ∧ Pidfh.verify fhClosedFd fsWorldPidMismatch = -EINVAL
    ∧ Pidfh.verify fhClosedFd fsWorldPidMismatch ≠ -ESTALE := by
  decide

theorem open_ok_fd_nonneg (pid_file : String) (w : FsWorld) (h : Pidfh)
    (hopen : Pidfh.open pid_file w = (0, h)) : 0 ≤ h.pf_fd := by
  simp only [Pidfh.open] at hopen
  split at hopen
  · have h1 := congrArg Prod.fst hopen
    norm_num [ENAMETOOLONG] at h1
  · split at hopen
    next e heq =>
      have h1 := congrArg Prod.fst hopen
      have he := e.2
      simp only at h1
      omega
    next fd heq =>
      split at hopen
      next e2 heq2 =>
        have h1 := congrArg Prod.fst hopen
        have he := e2.2
        simp only at h1
        omega
      next st heq2 =>
        split at hopen
        next e3 heq3 =>
          have h1 := congrArg Prod.fst hopen
          have he := e3.2
          simp only at h1
          omega
        next u heq3 =>
          have h2 := congrArg Prod.snd hopen
          simp only at h2
          rw [← h2]
          exact Int.natCast_nonneg fd

/-- Claim C8 (amended): `verify()` reports `Stale` exactly when the
descriptor field is present and the re-stat succeeds with a device or
inode differing from the captured identity; a closed descriptor field
yields `-EINVAL`, not `Stale`.  After a successful acquisition, while the
path still carries the captured identity `verify()` succeeds, and once
the path holds a different inode `verify()` reports `Stale`. -/
theorem verify_stale_characterization :
    (∀ (h : Pidfh) (w : FsWorld) (st : Stat), h.pf_fd ≠ -1 →
        w.statOf h.pf_path = .ok st →
        (h.verify w = -ESTALE ↔
          st.st_dev ≠ h.pf_dev ∨ st.st_ino ≠ h.pf_ino))
    ∧ (∀ (h : Pidfh) (w : FsWorld), h.pf_fd = -1 → h.verify w = -EINVAL)
    ∧ (∀ (pid_file : String) (w w' : FsWorld) (h : Pidfh),
        Pidfh.open pid_file w = (0, h) →
        w'.statOf h.pf_path = .ok ⟨h.pf_dev, h.pf_ino⟩ →
        h.verify w' = 0)
    ∧ (∀ (pid_file : String) (w w' : FsWorld) (h : Pidfh) (st : Stat),
        Pidfh.open pid_file w = (0, h) →
        w'.statOf h.pf_path = .ok st → st.st_ino ≠ h.pf_ino →
        h.verify w' = -ESTALE) := by
  refine ⟨?_, ?_, ?_, ?_⟩
  · intro h w st hfd hstat
    unfold Pidfh.verify
    rw [if_neg hfd, hstat]
    show (if st.st_dev ≠ h.pf_dev ∨ st.st_ino ≠ h.pf_ino
        then -ESTALE else 0) = -ESTALE
      ↔ st.st_dev ≠ h.pf_dev ∨ st.st_ino ≠ h.pf_ino
    by_cases hc : st.st_dev ≠ h.pf_dev ∨ st.st_ino ≠ h.pf_ino
    · rw [if_pos hc]
      exact iff_of_true rfl hc
    · rw [if_neg hc]
      exact iff_of_false (by norm_num [ESTALE]) hc
  · intro h w hfd
    unfold Pidfh.verify
    rw [if_pos hfd]
  · intro pf w w' h hopen hstat
    have hfd : h.pf_fd ≠ -1 := by
      have := open_ok_fd_nonneg pf w h hopen
      omega
    unfold Pidfh.verify
    rw [if_neg hfd, hstat]
    simp
  · intro pf w w' h st hopen hstat hino
    have hfd : h.pf_fd ≠ -1 := by
      have := open_ok_fd_nonneg pf w h hopen
      omega
    unfold Pidfh.verify
    rw [if_neg hfd, hstat]
    show (if st.st_dev ≠ h.pf_dev ∨ st.st_ino ≠ h.pf_ino
        then -ESTALE else 0) = -ESTALE
    rw [if_pos (Or.inr hino)]

theorem verify_stale_characterization_witness :
    fhClosedFd.pf_fd = -1
    ∧ Pidfh.verify fhClosedFd fsWorldPidMismatch = -EINVAL :=
  ⟨by decide,
   verify_stale_characterization.2.1 fhClosedFd fsWorldPidMismatch rfl⟩

end CephCore
